import Mathlib

/-!
# UAVCAN v1 ESC setpoint / readiness subscriber

A shallow embedding of `src/drivers/uavcan_v1/Subscribers/Esc.hpp`
(class `UavcanEscSubscriber`): the constructor, `handlesID`, `subscribe`
and `callback`.

Conventions of the embedding

* Object state is passed explicitly: every member function takes the object
  (`self`) and returns the object after the call.
* `CanardPortID` is a 16 bit unsigned integer, modelled as a `Nat` with the
  casts of the source written as explicit `%`.
* `hrt_absolute_time()` is the argument `now` of the operation that reads the
  clock (each operation reads it at most once).
* A uORB publication handle carries the list of the records published through
  it, oldest first.
* `float` arithmetic is carried out over the exact rationals `ℚ`.
* What the generated DSDL headers provide (the three readiness constants and
  the two deserialisers) is a parameter, `DSDL`.
-/

namespace Esc

/-! ## Data model -/

/-- The value of `CANARD_PORT_ID_UNSET`, the reserved "no port" identifier
(the largest 16 bit value); the macro itself is defined outside `Esc.hpp`. -/
def CANARD_PORT_ID_UNSET : Nat := 65535

/-- The fields of `CanardTransfer` that `callback` reads: the port identifier,
the payload size and the payload bytes. -/
structure CanardTransfer where
  port_id : Nat
  payload_size : Nat
  payload : List Nat
deriving DecidableEq

/-- Message `reg.drone.service.actuator.common.sp.Vector8.0.1`: `value[8]`. -/
structure reg_drone_service_actuator_common_sp_Vector8_0_1 where
  value : Fin 8 → ℚ

/-- Message `reg.drone.service.common.Readiness.0.1`: the field `value`. -/
structure reg_drone_service_common_Readiness_0_1 where
  value : Nat
deriving DecidableEq

/-- uORB record `output_control_s`: the timestamp and the eight values that
`callback` writes. -/
structure output_control_s where
  timestamp : Nat
  value : Fin 8 → ℚ

/-- uORB record `actuator_armed_s`: the three fields that `Esc.hpp` reads or
writes. -/
structure actuator_armed_s where
  timestamp : Nat
  armed : Bool
  prearmed : Bool
deriving DecidableEq

/-- What `Esc.hpp` takes from the generated DSDL headers
`Vector8_0_1.h` and `Readiness_0_1.h`, which are not part of the sources:
the three `case` labels of the readiness `switch` (pairwise distinct, as
`case` labels of one `switch` are) and the two deserialisers.

A deserialiser receives the message object it has to fill (the caller passes
a zero-initialised one), the payload and the size; it returns its status
(an `int8_t`: negative on failure) and the message object as it leaves it. -/
structure DSDL where
  reg_drone_service_common_Readiness_0_1_SLEEP : Nat
  reg_drone_service_common_Readiness_0_1_STANDBY : Nat
  reg_drone_service_common_Readiness_0_1_ENGAGED : Nat
  case_labels_distinct :
    reg_drone_service_common_Readiness_0_1_SLEEP ≠ reg_drone_service_common_Readiness_0_1_STANDBY ∧
    reg_drone_service_common_Readiness_0_1_SLEEP ≠ reg_drone_service_common_Readiness_0_1_ENGAGED ∧
    reg_drone_service_common_Readiness_0_1_STANDBY ≠ reg_drone_service_common_Readiness_0_1_ENGAGED
  reg_drone_service_actuator_common_sp_Vector8_0_1_deserialize_ :
    reg_drone_service_actuator_common_sp_Vector8_0_1 → List Nat → Nat →
      Int × reg_drone_service_actuator_common_sp_Vector8_0_1
  reg_drone_service_common_Readiness_0_1_deserialize_ :
    reg_drone_service_common_Readiness_0_1 → List Nat → Nat →
      Int × reg_drone_service_common_Readiness_0_1

/-- Handle `uORB::Publication<T>`: the records published through it, oldest
first. -/
structure Publication (T : Type) where
  published : List T

/-- Method `uORB::Publication<T>::publish`: the record goes out on the
channel. -/
def Publication.publish {T : Type} (self : Publication T) (data : T) : Publication T :=
  { published := self.published ++ [data] }

/-- Handle `uORB::PublicationData<T>`: a publication handle that also stores a
record, `_data` (what `get()` refers to). -/
structure PublicationData (T : Type) where
  _data : T
  published : List T

/-- Method `uORB::PublicationData<T>::update`: publishes the stored record. -/
def PublicationData.update {T : Type} (self : PublicationData T) : PublicationData T :=
  { self with published := self.published ++ [self._data] }

/-- The state of a `UavcanEscSubscriber`: `_port_id` (a member of the base
class `UavcanSubscriber`), `_arming_id`, the two publication handles, and the
port identifiers this object has passed to `canardRxSubscribe`, oldest
first. -/
structure UavcanEscSubscriber where
  _port_id : Nat
  _arming_id : Nat
  _output_pub : Publication output_control_s
  _arming_pub : PublicationData actuator_armed_s
  canardRxSubscribe : List Nat

/-! ## Operations -/

/-- The constructor `UavcanEscSubscriber::UavcanEscSubscriber`. The base
class `UavcanSubscriber` is not part of the sources, so the value it gives
`_port_id` is the argument `port_id`.
`_arming_id` starts as `CANARD_PORT_ID_UNSET`; the body sets the stored
record to `prearmed = false`, `armed = false`, `timestamp = now` and calls
`update()`. -/
def UavcanEscSubscriber.construct (port_id : Nat) (now : Nat) : UavcanEscSubscriber :=
  let _arming_pub : PublicationData actuator_armed_s :=
    { _data := { timestamp := 0, armed := false, prearmed := false }, published := [] }
  let _arming_pub := { _arming_pub with _data := { _arming_pub._data with prearmed := false } }
  let _arming_pub := { _arming_pub with _data := { _arming_pub._data with armed := false } }
  let _arming_pub := { _arming_pub with _data := { _arming_pub._data with timestamp := now } }
  { _port_id := port_id
    _arming_id := CANARD_PORT_ID_UNSET
    _output_pub := { published := [] }
    _arming_pub := _arming_pub.update
    canardRxSubscribe := [] }

/-- Method `handlesID`: `(id == _port_id) || (id == _arming_id)`. -/
def UavcanEscSubscriber.handlesID (self : UavcanEscSubscriber) (id : Nat) : Bool :=
  (id == self._port_id) || (id == self._arming_id)

/-- Method `subscribe`: subscribes `_port_id`, sets
`_arming_id = static_cast<CanardPortID>(static_cast<uint32_t>(_port_id) + 1)`
and subscribes `_arming_id`. -/
def UavcanEscSubscriber.subscribe (self : UavcanEscSubscriber) : UavcanEscSubscriber :=
  let self := { self with canardRxSubscribe := self.canardRxSubscribe ++ [self._port_id] }
  let self := { self with _arming_id := ((self._port_id % 2 ^ 32 + 1) % 2 ^ 32) % 2 ^ 16 }
  { self with canardRxSubscribe := self.canardRxSubscribe ++ [self._arming_id] }

/-- The loop `for (i = 0; i < 8; i++) outputs.value[i] = 2.f * (esc.value[i] / 8191.f) - 1.f;`
of `callback`: the array `outputs.value` after the first `n` iterations,
started from the contents `value`. -/
def setpoint_loop (esc : reg_drone_service_actuator_common_sp_Vector8_0_1) (value : Fin 8 → ℚ) :
    (n : Nat) → n ≤ 8 → (Fin 8 → ℚ)
  | 0, _ => value
  | n + 1, h =>
    Function.update (setpoint_loop esc value n (Nat.le_of_succ_le h)) ⟨n, h⟩
      (2 * (esc.value ⟨n, h⟩ / 8191) - 1)

/-- Method `callback`. The status that a deserialiser returns is not looked
at, as in the source. `outputs` is declared without an initialiser; its
`value` array is started at zeros here, and every entry is overwritten by the
loop (`setpoint_loop_initial_irrelevant`). -/
def UavcanEscSubscriber.callback (self : UavcanEscSubscriber) (dsdl : DSDL) (now : Nat)
    (receive : CanardTransfer) : UavcanEscSubscriber :=
  if receive.port_id = self._port_id then
    let esc : reg_drone_service_actuator_common_sp_Vector8_0_1 := { value := fun _ => 0 }
    let esc_size_in_bits := receive.payload_size
    let esc := (dsdl.reg_drone_service_actuator_common_sp_Vector8_0_1_deserialize_ esc
      receive.payload esc_size_in_bits).2
    let outputs : output_control_s := { timestamp := 0, value := fun _ => 0 }
    let outputs := { outputs with timestamp := now }
    let outputs := { outputs with value := setpoint_loop esc outputs.value 8 (Nat.le_refl 8) }
    { self with _output_pub := self._output_pub.publish outputs }
  else if receive.port_id = self._arming_id then
    let arm : reg_drone_service_common_Readiness_0_1 := { value := 0 }
    let arm_size := receive.payload_size
    let arm := (dsdl.reg_drone_service_common_Readiness_0_1_deserialize_ arm
      receive.payload arm_size).2
    let armed : actuator_armed_s := { timestamp := 0, armed := false, prearmed := false }
    let armed :=
      if arm.value = dsdl.reg_drone_service_common_Readiness_0_1_SLEEP then
        { armed with armed := false, prearmed := false }
      else if arm.value = dsdl.reg_drone_service_common_Readiness_0_1_STANDBY then
        { armed with armed := false, prearmed := true }
      else if arm.value = dsdl.reg_drone_service_common_Readiness_0_1_ENGAGED then
        { armed with armed := true, prearmed := true }
      else armed
    if (armed.prearmed != self._arming_pub._data.prearmed
        || armed.armed != self._arming_pub._data.armed) = true then
      let _arming_pub := self._arming_pub
      let _arming_pub := { _arming_pub with _data := { _arming_pub._data with prearmed := armed.prearmed } }
      let _arming_pub := { _arming_pub with _data := { _arming_pub._data with armed := armed.armed } }
      let _arming_pub := { _arming_pub with _data := { _arming_pub._data with timestamp := now } }
      { self with _arming_pub := _arming_pub.update }
    else self
  else self

/-! ## A concrete instance of the DSDL parameter

Used to evaluate the operations on concrete transfers. -/

/-- Modelled from the spec: the readiness deserialiser of the external message
codec, which is not part of the sources. It "must fail cleanly if the bound
is insufficient for the schema": with no payload byte within the size bound it
reports failure and leaves the message object as it received it; otherwise the
code is the low two bits of the first byte. -/
def model_Readiness_0_1_deserialize_ (out_obj : reg_drone_service_common_Readiness_0_1)
    (payload : List Nat) (size : Nat) : Int × reg_drone_service_common_Readiness_0_1 :=
  match payload with
  | [] => (-1, out_obj)
  | b :: _ => if 1 ≤ size then (0, { value := b % 4 }) else (-1, out_obj)

/-- Modelled from the spec: the setpoint deserialiser of the external message
codec, which is not part of the sources. It "must fail cleanly if the bound
is insufficient for the schema": with fewer than sixteen payload bytes within
the size bound it reports failure and leaves the message object as it received
it; otherwise entry `i` is the 16 bit little-endian integer at bytes `2 i` and
`2 i + 1` ("the same codec encodes fixed point integers into the setpoint
vector"). -/
def model_Vector8_0_1_deserialize_ (out_obj : reg_drone_service_actuator_common_sp_Vector8_0_1)
    (payload : List Nat) (size : Nat) : Int × reg_drone_service_actuator_common_sp_Vector8_0_1 :=
  if 16 ≤ size ∧ 16 ≤ payload.length then
    (0, { value := fun i =>
      ((payload.getD (2 * i.val) 0 % 256 + 256 * (payload.getD (2 * i.val + 1) 0 % 256) : Nat) : ℚ) })
  else (-1, out_obj)

/-- The DSDL parameter used for concrete evaluation: the readiness codes of
`reg.drone.service.common.Readiness.0.1` (`SLEEP = 0`, `STANDBY = 2`,
`ENGAGED = 3`) and the two model deserialisers. -/
def model_dsdl : DSDL where
  reg_drone_service_common_Readiness_0_1_SLEEP := 0
  reg_drone_service_common_Readiness_0_1_STANDBY := 2
  reg_drone_service_common_Readiness_0_1_ENGAGED := 3
  case_labels_distinct := by decide
  reg_drone_service_actuator_common_sp_Vector8_0_1_deserialize_ := model_Vector8_0_1_deserialize_
  reg_drone_service_common_Readiness_0_1_deserialize_ := model_Readiness_0_1_deserialize_

/-- A readiness transfer on port `port_id` carrying the single payload byte
`code`. -/
def readiness_transfer (port_id : Nat) (code : Nat) : CanardTransfer :=
  { port_id := port_id, payload_size := 1, payload := [code] }

/-- A transfer on port `port_id` with an empty payload, which neither model
deserialiser can decode. -/
def empty_transfer (port_id : Nat) : CanardTransfer :=
  { port_id := port_id, payload_size := 0, payload := [] }

/-- A subscriber with `_port_id = 22`, `_arming_id = 23`, constructed at time
`100` and subscribed. -/
def unit22 : UavcanEscSubscriber :=
  (UavcanEscSubscriber.construct 22 100).subscribe

/-- A setpoint transfer on port `port_id`: sixteen payload bytes holding the
given values as 16 bit little-endian integers. -/
def vector8_transfer (port_id : Nat) (values : List Nat) : CanardTransfer :=
  { port_id := port_id
    payload_size := 16
    payload := values.flatMap fun v => [v % 256, v / 256 % 256] }

/-- The subscriber `unit22` after an ENGAGED readiness transfer handled at time
`200`: armed and pre-armed. -/
def engaged22 : UavcanEscSubscriber :=
  unit22.callback model_dsdl 200 (readiness_transfer 23 3)

/-- One call made on a subscriber after its construction: `subscribe()`, or
`callback(receive)` with the clock reading `now`. -/
inductive Operation where
  | subscribe
  | callback (now : Nat) (receive : CanardTransfer)

/-- The subscriber after one call. -/
def UavcanEscSubscriber.perform (dsdl : DSDL) (self : UavcanEscSubscriber) :
    Operation → UavcanEscSubscriber
  | Operation.subscribe => self.subscribe
  | Operation.callback now receive => self.callback dsdl now receive

/-- The subscriber after a sequence of calls, made in the order of the list. -/
def UavcanEscSubscriber.run (self : UavcanEscSubscriber) (dsdl : DSDL)
    (calls : List Operation) : UavcanEscSubscriber :=
  calls.foldl (UavcanEscSubscriber.perform dsdl) self

/-! ## Basic facts -/

theorem unit22_ids : unit22._port_id = 22 ∧ unit22._arming_id = 23 := by
  decide

/-- After `n` iterations the loop has written the entries below `n` and left
the others as they were. -/
theorem setpoint_loop_apply (esc : reg_drone_service_actuator_common_sp_Vector8_0_1)
    (value : Fin 8 → ℚ) (n : Nat) (h : n ≤ 8) (i : Fin 8) :
    setpoint_loop esc value n h i
      = if i.val < n then 2 * (esc.value i / 8191) - 1 else value i := by
  induction n with
  | zero => simp [setpoint_loop]
  | succ n ih =>
    rw [setpoint_loop]
    by_cases hi : i = ⟨n, h⟩
    · subst hi
      simp
    · have hne : i.val ≠ n := fun hv => hi (Fin.ext hv)
      rw [Function.update_noteq hi, ih (Nat.le_of_succ_le h)]
      by_cases hlt : i.val < n
      · have : i.val < n + 1 := by omega
        simp [hlt, this]
      · have : ¬ i.val < n + 1 := by omega
        simp [hlt, this]

/-- The complete loop writes every entry. -/
theorem setpoint_loop_full (esc : reg_drone_service_actuator_common_sp_Vector8_0_1)
    (value : Fin 8 → ℚ) :
    setpoint_loop esc value 8 (Nat.le_refl 8) = fun i => 2 * (esc.value i / 8191) - 1 := by
  funext i
  rw [setpoint_loop_apply]
  simp [i.isLt]

/-- The result of the complete loop does not depend on what `outputs.value`
held before it. -/
theorem setpoint_loop_initial_irrelevant (esc : reg_drone_service_actuator_common_sp_Vector8_0_1)
    (value value' : Fin 8 → ℚ) :
    setpoint_loop esc value 8 (Nat.le_refl 8) = setpoint_loop esc value' 8 (Nat.le_refl 8) := by
  rw [setpoint_loop_full, setpoint_loop_full]

/-- The setpoint branch: one record is published, nothing else changes. -/
theorem callback_primary (self : UavcanEscSubscriber) (dsdl : DSDL) (now : Nat)
    (receive : CanardTransfer) (hprim : receive.port_id = self._port_id) :
    self.callback dsdl now receive
      = { self with
          _output_pub :=
            { published := self._output_pub.published ++
                [{ timestamp := now
                   value := fun i =>
                     2 * ((dsdl.reg_drone_service_actuator_common_sp_Vector8_0_1_deserialize_
                       { value := fun _ => 0 } receive.payload receive.payload_size).2.value i
                         / 8191) - 1 }] } } := by
  simp only [UavcanEscSubscriber.callback, if_pos hprim, Publication.publish, setpoint_loop_full]

/-- The readiness branch, given the candidate flags `a` (armed) and `p`
(pre-armed) that the `switch` produces. -/
theorem callback_secondary (self : UavcanEscSubscriber) (dsdl : DSDL) (now : Nat)
    (receive : CanardTransfer) (a p : Bool)
    (hne : receive.port_id ≠ self._port_id) (harm : receive.port_id = self._arming_id)
    (hrow :
      ((dsdl.reg_drone_service_common_Readiness_0_1_deserialize_ { value := 0 }
          receive.payload receive.payload_size).2.value
            = dsdl.reg_drone_service_common_Readiness_0_1_SLEEP ∧ a = false ∧ p = false) ∨
      ((dsdl.reg_drone_service_common_Readiness_0_1_deserialize_ { value := 0 }
          receive.payload receive.payload_size).2.value
            = dsdl.reg_drone_service_common_Readiness_0_1_STANDBY ∧ a = false ∧ p = true) ∨
      ((dsdl.reg_drone_service_common_Readiness_0_1_deserialize_ { value := 0 }
          receive.payload receive.payload_size).2.value
            = dsdl.reg_drone_service_common_Readiness_0_1_ENGAGED ∧ a = true ∧ p = true) ∨
      ((dsdl.reg_drone_service_common_Readiness_0_1_deserialize_ { value := 0 }
          receive.payload receive.payload_size).2.value
            ≠ dsdl.reg_drone_service_common_Readiness_0_1_SLEEP ∧
       (dsdl.reg_drone_service_common_Readiness_0_1_deserialize_ { value := 0 }
          receive.payload receive.payload_size).2.value
            ≠ dsdl.reg_drone_service_common_Readiness_0_1_STANDBY ∧
       (dsdl.reg_drone_service_common_Readiness_0_1_deserialize_ { value := 0 }
          receive.payload receive.payload_size).2.value
            ≠ dsdl.reg_drone_service_common_Readiness_0_1_ENGAGED ∧ a = false ∧ p = false)) :
    self.callback dsdl now receive
      = if a = self._arming_pub._data.armed ∧ p = self._arming_pub._data.prearmed then self
        else { self with
               _arming_pub :=
                 { _data := { timestamp := now, armed := a, prearmed := p }
                   published := self._arming_pub.published ++
                     [{ timestamp := now, armed := a, prearmed := p }] } } := by
  obtain ⟨d1, d2, d3⟩ := dsdl.case_labels_distinct
  simp only [UavcanEscSubscriber.callback, if_neg hne, if_pos harm, PublicationData.update]
  rcases hrow with ⟨hv, rfl, rfl⟩ | ⟨hv, rfl, rfl⟩ | ⟨hv, rfl, rfl⟩ | ⟨h1, h2, h3, rfl, rfl⟩
  · rw [if_pos hv]
    cases self._arming_pub._data.armed <;> cases self._arming_pub._data.prearmed <;> simp
  · have h1 : (dsdl.reg_drone_service_common_Readiness_0_1_deserialize_ { value := 0 }
        receive.payload receive.payload_size).2.value
          ≠ dsdl.reg_drone_service_common_Readiness_0_1_SLEEP := fun h => d1 (h.symm.trans hv)
    rw [if_neg h1, if_pos hv]
    cases self._arming_pub._data.armed <;> cases self._arming_pub._data.prearmed <;> simp
  · have h1 : (dsdl.reg_drone_service_common_Readiness_0_1_deserialize_ { value := 0 }
        receive.payload receive.payload_size).2.value
          ≠ dsdl.reg_drone_service_common_Readiness_0_1_SLEEP := fun h => d2 (h.symm.trans hv)
    have h2 : (dsdl.reg_drone_service_common_Readiness_0_1_deserialize_ { value := 0 }
        receive.payload receive.payload_size).2.value
          ≠ dsdl.reg_drone_service_common_Readiness_0_1_STANDBY := fun h => d3 (h.symm.trans hv)
    rw [if_neg h1, if_neg h2, if_pos hv]
    cases self._arming_pub._data.armed <;> cases self._arming_pub._data.prearmed <;> simp
  · rw [if_neg h1, if_neg h2, if_neg h3]
    cases self._arming_pub._data.armed <;> cases self._arming_pub._data.prearmed <;> simp

/-- Method `callback` never changes the two identifiers. -/
theorem callback_ids (self : UavcanEscSubscriber) (dsdl : DSDL) (now : Nat)
    (receive : CanardTransfer) :
    (self.callback dsdl now receive)._port_id = self._port_id ∧
    (self.callback dsdl now receive)._arming_id = self._arming_id := by
  unfold UavcanEscSubscriber.callback
  by_cases h1 : receive.port_id = self._port_id
  · rw [if_pos h1]
    exact ⟨rfl, rfl⟩
  · rw [if_neg h1]
    by_cases h2 : receive.port_id = self._arming_id
    · rw [if_pos h2]
      dsimp only
      split_ifs <;> exact ⟨rfl, rfl⟩
    · rw [if_neg h2]
      exact ⟨rfl, rfl⟩

/-- After the readiness branch the stored flags are the candidate flags. -/
theorem callback_secondary_flags (self : UavcanEscSubscriber) (dsdl : DSDL) (now : Nat)
    (receive : CanardTransfer) (v : Nat) (a p : Bool)
    (hne : receive.port_id ≠ self._port_id) (harm : receive.port_id = self._arming_id)
    (hv : (dsdl.reg_drone_service_common_Readiness_0_1_deserialize_ { value := 0 }
      receive.payload receive.payload_size).2.value = v)
    (hrow :
      (v = dsdl.reg_drone_service_common_Readiness_0_1_SLEEP ∧ a = false ∧ p = false) ∨
      (v = dsdl.reg_drone_service_common_Readiness_0_1_STANDBY ∧ a = false ∧ p = true) ∨
      (v = dsdl.reg_drone_service_common_Readiness_0_1_ENGAGED ∧ a = true ∧ p = true)) :
    (self.callback dsdl now receive)._arming_pub._data.armed = a ∧
    (self.callback dsdl now receive)._arming_pub._data.prearmed = p := by
  subst hv
  have hrow' := callback_secondary self dsdl now receive a p hne harm
    (by rcases hrow with h | h | h
        · exact Or.inl h
        · exact Or.inr (Or.inl h)
        · exact Or.inr (Or.inr (Or.inl h)))
  rw [hrow']
  split
  next h => exact ⟨h.1.symm, h.2.symm⟩
  next => exact ⟨rfl, rfl⟩

/-- Appending a record changes the list of published records. -/
theorem append_singleton_ne {T : Type} (l : List T) (x : T) : l ++ [x] ≠ l := by
  intro h
  have := congrArg List.length h
  simp at this

/-! ## Readiness transfers that carry no defined code, and payloads that do not decode -/

/-- C1, counterexample. The armed and pre-armed subscriber `engaged22`
receives on its readiness port `23` a transfer that decodes (status `0`) to
the value `1`, which is none of `SLEEP = 0`, `STANDBY = 2`, `ENGAGED = 3`.
The call is not a no-op: the stored record becomes disarmed, stamped with the
time of the call, and is published. -/
theorem C1_counterexample :
    (readiness_transfer 23 1).port_id = engaged22._arming_id ∧
    model_dsdl.reg_drone_service_common_Readiness_0_1_deserialize_ { value := 0 }
      (readiness_transfer 23 1).payload (readiness_transfer 23 1).payload_size
        = (0, { value := 1 }) ∧
    model_dsdl.reg_drone_service_common_Readiness_0_1_SLEEP = 0 ∧
    model_dsdl.reg_drone_service_common_Readiness_0_1_STANDBY = 2 ∧
    model_dsdl.reg_drone_service_common_Readiness_0_1_ENGAGED = 3 ∧
    engaged22._arming_pub._data = { timestamp := 200, armed := true, prearmed := true } ∧
    (engaged22.callback model_dsdl 300 (readiness_transfer 23 1))._arming_pub._data
      = { timestamp := 300, armed := false, prearmed := false } ∧
    (engaged22.callback model_dsdl 300 (readiness_transfer 23 1))._arming_pub.published
      = engaged22._arming_pub.published
          ++ [{ timestamp := 300, armed := false, prearmed := false }] := by
  decide

/-- C1, amended. A readiness transfer on the secondary identifier whose
decoded value is none of the three defined codes yields the candidate
`(armed, prearmed) = (false, false)`, the same as SLEEP. If the stored flags
are already both false the call changes nothing and publishes nothing;
otherwise the stored record becomes `(false, false)` stamped with the current
time and exactly that record is published, and nothing else changes. -/
theorem C1_undefined_code_handled_as_sleep (self : UavcanEscSubscriber) (dsdl : DSDL)
    (now : Nat) (receive : CanardTransfer) (v : Nat)
    (hne : receive.port_id ≠ self._port_id) (harm : receive.port_id = self._arming_id)
    (hv : (dsdl.reg_drone_service_common_Readiness_0_1_deserialize_ { value := 0 }
      receive.payload receive.payload_size).2.value = v)
    (h1 : v ≠ dsdl.reg_drone_service_common_Readiness_0_1_SLEEP)
    (h2 : v ≠ dsdl.reg_drone_service_common_Readiness_0_1_STANDBY)
    (h3 : v ≠ dsdl.reg_drone_service_common_Readiness_0_1_ENGAGED) :
    ((self._arming_pub._data.armed = false ∧ self._arming_pub._data.prearmed = false) →
      self.callback dsdl now receive = self) ∧
    (¬ (self._arming_pub._data.armed = false ∧ self._arming_pub._data.prearmed = false) →
      self.callback dsdl now receive
        = { self with
            _arming_pub :=
              { _data := { timestamp := now, armed := false, prearmed := false }
                published := self._arming_pub.published ++
                  [{ timestamp := now, armed := false, prearmed := false }] } }) := by
  subst hv
  have hcb := callback_secondary self dsdl now receive false false hne harm
    (Or.inr (Or.inr (Or.inr ⟨h1, h2, h3, rfl, rfl⟩)))
  constructor
  · rintro ⟨ha, hp⟩
    rw [hcb, if_pos ⟨ha.symm, hp.symm⟩]
  · intro hn
    rw [hcb, if_neg (fun h => hn ⟨h.1.symm, h.2.symm⟩)]

/-- C1, amended, at a concrete input: the armed subscriber `engaged22` and a
transfer on port `23` decoding to the undefined value `1`. -/
theorem C1_undefined_code_handled_as_sleep_witness :
    engaged22.callback model_dsdl 300 (readiness_transfer 23 1)
      = { engaged22 with
          _arming_pub :=
            { _data := { timestamp := 300, armed := false, prearmed := false }
              published := engaged22._arming_pub.published ++
                [{ timestamp := 300, armed := false, prearmed := false }] } } :=
  (C1_undefined_code_handled_as_sleep engaged22 model_dsdl 300 (readiness_transfer 23 1) 1
    (by decide) (by decide) (by decide) (by decide) (by decide) (by decide)).2 (by decide)

/-- C2, counterexample. The armed and pre-armed subscriber `engaged22`
receives on its readiness port `23` an empty payload, which the deserialiser
rejects (status `-1`, message object left zero-initialised). The failure is
not swallowed without effect: the stored record becomes disarmed, stamped
with the time of the call, and is published. -/
theorem C2_counterexample :
    (empty_transfer 23).port_id = engaged22._arming_id ∧
    model_dsdl.reg_drone_service_common_Readiness_0_1_deserialize_ { value := 0 }
      (empty_transfer 23).payload (empty_transfer 23).payload_size = (-1, { value := 0 }) ∧
    engaged22._arming_pub._data = { timestamp := 200, armed := true, prearmed := true } ∧
    (engaged22.callback model_dsdl 300 (empty_transfer 23))._arming_pub._data
      = { timestamp := 300, armed := false, prearmed := false } ∧
    (engaged22.callback model_dsdl 300 (empty_transfer 23))._arming_pub.published
      = engaged22._arming_pub.published
          ++ [{ timestamp := 300, armed := false, prearmed := false }] := by
  decide

/-- C2, amended. When the payload of a transfer on the secondary identifier
fails to decode, no error surfaces, but the status is not looked at: the
readiness rule is applied to the value `v` that the deserialiser left in the
zero-initialised message object. With `(a, p)` the candidate flags of `v`
(SLEEP `(false, false)`, STANDBY `(false, true)`, ENGAGED `(true, true)`, any
other value `(false, false)`): if the stored flags equal `(a, p)` the call
changes nothing and publishes nothing; otherwise the stored record becomes
`(a, p)` stamped with the current time and exactly that record is
published. -/
theorem C2_decode_failure_applies_left_value (self : UavcanEscSubscriber) (dsdl : DSDL)
    (now : Nat) (receive : CanardTransfer) (v : Nat) (a p : Bool)
    (hne : receive.port_id ≠ self._port_id) (harm : receive.port_id = self._arming_id)
    (_hfail : (dsdl.reg_drone_service_common_Readiness_0_1_deserialize_ { value := 0 }
      receive.payload receive.payload_size).1 < 0)
    (hv : (dsdl.reg_drone_service_common_Readiness_0_1_deserialize_ { value := 0 }
      receive.payload receive.payload_size).2.value = v)
    (hrow :
      (v = dsdl.reg_drone_service_common_Readiness_0_1_SLEEP ∧ a = false ∧ p = false) ∨
      (v = dsdl.reg_drone_service_common_Readiness_0_1_STANDBY ∧ a = false ∧ p = true) ∨
      (v = dsdl.reg_drone_service_common_Readiness_0_1_ENGAGED ∧ a = true ∧ p = true) ∨
      (v ≠ dsdl.reg_drone_service_common_Readiness_0_1_SLEEP ∧
       v ≠ dsdl.reg_drone_service_common_Readiness_0_1_STANDBY ∧
       v ≠ dsdl.reg_drone_service_common_Readiness_0_1_ENGAGED ∧ a = false ∧ p = false)) :
    ((self._arming_pub._data.armed = a ∧ self._arming_pub._data.prearmed = p) →
      self.callback dsdl now receive = self) ∧
    (¬ (self._arming_pub._data.armed = a ∧ self._arming_pub._data.prearmed = p) →
      self.callback dsdl now receive
        = { self with
            _arming_pub :=
              { _data := { timestamp := now, armed := a, prearmed := p }
                published := self._arming_pub.published ++
                  [{ timestamp := now, armed := a, prearmed := p }] } }) := by
  subst hv
  have hcb := callback_secondary self dsdl now receive a p hne harm hrow
  constructor
  · rintro ⟨ha, hp⟩
    rw [hcb, if_pos ⟨ha.symm, hp.symm⟩]
  · intro hn
    rw [hcb, if_neg (fun h => hn ⟨h.1.symm, h.2.symm⟩)]

/-- C2, amended, at a concrete input: the armed subscriber `engaged22` and an
empty payload on port `23`. -/
theorem C2_decode_failure_applies_left_value_witness :
    engaged22.callback model_dsdl 300 (empty_transfer 23)
      = { engaged22 with
          _arming_pub :=
            { _data := { timestamp := 300, armed := false, prearmed := false }
              published := engaged22._arming_pub.published ++
                [{ timestamp := 300, armed := false, prearmed := false }] } } :=
  (C2_decode_failure_applies_left_value engaged22 model_dsdl 300 (empty_transfer 23) 0
    false false (by decide) (by decide) (by decide) (by decide)
    (Or.inl ⟨by decide, rfl, rfl⟩)).2 (by decide)

/-- C3, counterexample. The subscriber `unit22` receives on its setpoint port
`22` an empty payload, which the deserialiser rejects (status `-1`, message
object left zero-initialised). An `OutputRecord` is published all the same:
stamped with the time of the call and holding `-1` in every entry. -/
theorem C3_counterexample :
    (empty_transfer 22).port_id = unit22._port_id ∧
    (model_dsdl.reg_drone_service_actuator_common_sp_Vector8_0_1_deserialize_
      { value := fun _ => 0 } (empty_transfer 22).payload (empty_transfer 22).payload_size).1
        = -1 ∧
    unit22._output_pub.published.length = 0 ∧
    (unit22.callback model_dsdl 300 (empty_transfer 22))._output_pub.published.length = 1 ∧
    (unit22.callback model_dsdl 300 (empty_transfer 22))._output_pub.published.map
      (fun outputs => outputs.timestamp) = [300] ∧
    (unit22.callback model_dsdl 300 (empty_transfer 22))._output_pub.published.map
      (fun outputs => List.ofFn outputs.value) = [[-1, -1, -1, -1, -1, -1, -1, -1]] := by
  refine ⟨by decide, by decide, by decide, ?_, ?_, ?_⟩
  · rw [callback_primary _ _ _ _ (by decide)]
    decide
  · rw [callback_primary _ _ _ _ (by decide)]
    decide
  · rw [callback_primary _ _ _ _ (by decide)]
    simp [unit22, UavcanEscSubscriber.construct, UavcanEscSubscriber.subscribe, model_dsdl,
      model_Vector8_0_1_deserialize_, empty_transfer, List.ofFn_succ]

/-- C3, amended. When the payload of a transfer on the primary identifier
fails to decode, the status is not looked at: exactly one `OutputRecord` is
published, stamped with the current time and holding the normalized values
`2 * (x / 8191) - 1` of whatever the deserialiser left in the zero-initialised
setpoint object (so `-1` in every entry if it left the object untouched).
The stored `ArmedState` and the armed channel are unchanged. -/
theorem C3_decode_failure_still_publishes (self : UavcanEscSubscriber) (dsdl : DSDL)
    (now : Nat) (receive : CanardTransfer)
    (hprim : receive.port_id = self._port_id)
    (_hfail : (dsdl.reg_drone_service_actuator_common_sp_Vector8_0_1_deserialize_
      { value := fun _ => 0 } receive.payload receive.payload_size).1 < 0) :
    (self.callback dsdl now receive)._output_pub.published
      = self._output_pub.published ++
          [{ timestamp := now
             value := fun i =>
               2 * ((dsdl.reg_drone_service_actuator_common_sp_Vector8_0_1_deserialize_
                 { value := fun _ => 0 } receive.payload receive.payload_size).2.value i
                   / 8191) - 1 }] ∧
    ((∀ i, (dsdl.reg_drone_service_actuator_common_sp_Vector8_0_1_deserialize_
        { value := fun _ => 0 } receive.payload receive.payload_size).2.value i = 0) →
      (self.callback dsdl now receive)._output_pub.published
        = self._output_pub.published ++ [{ timestamp := now, value := fun _ => -1 }]) ∧
    (self.callback dsdl now receive)._arming_pub = self._arming_pub := by
  rw [callback_primary self dsdl now receive hprim]
  refine ⟨rfl, ?_, rfl⟩
  intro hz
  simp [hz]

/-- C3, amended, at a concrete input: the subscriber `unit22` and an empty
payload on port `22`. -/
theorem C3_decode_failure_still_publishes_witness :
    (unit22.callback model_dsdl 300 (empty_transfer 22))._output_pub.published
      = unit22._output_pub.published ++ [{ timestamp := 300, value := fun _ => -1 }] :=
  (C3_decode_failure_still_publishes unit22 model_dsdl 300 (empty_transfer 22)
    (by decide) (by decide)).2.1 (fun _ => rfl)

/-! ## Readiness translation: compare and publish -/

/-- C4. For a readiness transfer on the secondary identifier that carries a
defined code, with `(a, p)` the candidate flags of the code: `callback`
publishes on the armed channel if and only if `(a, p)` differs from the
stored pair in at least one field; when it publishes, exactly one record is
appended, it carries the candidate flags and the current time, and the stored
record equals it; when it does not publish, the stored record (flags and
timestamp) and the channel are unchanged. -/
theorem C4_publish_iff_changed (self : UavcanEscSubscriber) (dsdl : DSDL) (now : Nat)
    (receive : CanardTransfer) (v : Nat) (a p : Bool)
    (hne : receive.port_id ≠ self._port_id) (harm : receive.port_id = self._arming_id)
    (hv : (dsdl.reg_drone_service_common_Readiness_0_1_deserialize_ { value := 0 }
      receive.payload receive.payload_size).2.value = v)
    (hrow :
      (v = dsdl.reg_drone_service_common_Readiness_0_1_SLEEP ∧ a = false ∧ p = false) ∨
      (v = dsdl.reg_drone_service_common_Readiness_0_1_STANDBY ∧ a = false ∧ p = true) ∨
      (v = dsdl.reg_drone_service_common_Readiness_0_1_ENGAGED ∧ a = true ∧ p = true)) :
    ((self.callback dsdl now receive)._arming_pub.published ≠ self._arming_pub.published ↔
      (a ≠ self._arming_pub._data.armed ∨ p ≠ self._arming_pub._data.prearmed)) ∧
    ((a ≠ self._arming_pub._data.armed ∨ p ≠ self._arming_pub._data.prearmed) →
      (self.callback dsdl now receive)._arming_pub.published
        = self._arming_pub.published ++ [{ timestamp := now, armed := a, prearmed := p }] ∧
      (self.callback dsdl now receive)._arming_pub._data
        = { timestamp := now, armed := a, prearmed := p }) ∧
    (¬ (a ≠ self._arming_pub._data.armed ∨ p ≠ self._arming_pub._data.prearmed) →
      (self.callback dsdl now receive)._arming_pub = self._arming_pub) := by
  subst hv
  have hcb := callback_secondary self dsdl now receive a p hne harm
    (by rcases hrow with h | h | h
        · exact Or.inl h
        · exact Or.inr (Or.inl h)
        · exact Or.inr (Or.inr (Or.inl h)))
  by_cases hsame : a = self._arming_pub._data.armed ∧ p = self._arming_pub._data.prearmed
  · rw [hcb, if_pos hsame]
    have hno : ¬ (a ≠ self._arming_pub._data.armed ∨ p ≠ self._arming_pub._data.prearmed) := by
      rintro (h | h)
      · exact h hsame.1
      · exact h hsame.2
    refine ⟨⟨fun h => absurd rfl h, fun h => absurd h hno⟩, fun h => absurd h hno, fun _ => rfl⟩
  · rw [hcb, if_neg hsame]
    have hyes : a ≠ self._arming_pub._data.armed ∨ p ≠ self._arming_pub._data.prearmed := by
      by_cases ha : a = self._arming_pub._data.armed
      · exact Or.inr (fun hp => hsame ⟨ha, hp⟩)
      · exact Or.inl ha
    refine ⟨⟨fun _ => hyes, fun _ => append_singleton_ne _ _⟩, fun _ => ⟨rfl, rfl⟩,
      fun h => absurd hyes h⟩

/-- C4 at a concrete input: the pre-armed-only flags of STANDBY differ from
the stored flags of the armed subscriber `engaged22`, so the record is stored
and published. -/
theorem C4_publish_iff_changed_witness :
    (engaged22.callback model_dsdl 300 (readiness_transfer 23 2))._arming_pub.published
      = engaged22._arming_pub.published
          ++ [{ timestamp := 300, armed := false, prearmed := true }] ∧
    (engaged22.callback model_dsdl 300 (readiness_transfer 23 2))._arming_pub._data
      = { timestamp := 300, armed := false, prearmed := true } :=
  (C4_publish_iff_changed engaged22 model_dsdl 300 (readiness_transfer 23 2) 2 false true
    (by decide) (by decide) (by decide) (Or.inr (Or.inl ⟨by decide, rfl, rfl⟩))).2.1
    (Or.inl (by decide))

/-- C5. After `callback` handles a successfully decoded readiness transfer on
the secondary identifier, the stored flags are the table row of its code,
whatever they were before: SLEEP (Idle) gives `(armed, prearmed) = (false,
false)`, STANDBY gives `(false, true)`, ENGAGED gives `(true, true)`. -/
theorem C5_readiness_mapping (self : UavcanEscSubscriber) (dsdl : DSDL) (now : Nat)
    (receive : CanardTransfer) (v : Nat)
    (hne : receive.port_id ≠ self._port_id) (harm : receive.port_id = self._arming_id)
    (_hok : 0 ≤ (dsdl.reg_drone_service_common_Readiness_0_1_deserialize_ { value := 0 }
      receive.payload receive.payload_size).1)
    (hv : (dsdl.reg_drone_service_common_Readiness_0_1_deserialize_ { value := 0 }
      receive.payload receive.payload_size).2.value = v) :
    (v = dsdl.reg_drone_service_common_Readiness_0_1_SLEEP →
      (self.callback dsdl now receive)._arming_pub._data.armed = false ∧
      (self.callback dsdl now receive)._arming_pub._data.prearmed = false) ∧
    (v = dsdl.reg_drone_service_common_Readiness_0_1_STANDBY →
      (self.callback dsdl now receive)._arming_pub._data.armed = false ∧
      (self.callback dsdl now receive)._arming_pub._data.prearmed = true) ∧
    (v = dsdl.reg_drone_service_common_Readiness_0_1_ENGAGED →
      (self.callback dsdl now receive)._arming_pub._data.armed = true ∧
      (self.callback dsdl now receive)._arming_pub._data.prearmed = true) :=
  ⟨fun h => callback_secondary_flags self dsdl now receive v false false hne harm hv
      (Or.inl ⟨h, rfl, rfl⟩),
   fun h => callback_secondary_flags self dsdl now receive v false true hne harm hv
      (Or.inr (Or.inl ⟨h, rfl, rfl⟩)),
   fun h => callback_secondary_flags self dsdl now receive v true true hne harm hv
      (Or.inr (Or.inr ⟨h, rfl, rfl⟩))⟩

/-- C5 at a concrete input: a STANDBY transfer handled by the armed subscriber
`engaged22` leaves the stored flags `(false, true)`. -/
theorem C5_readiness_mapping_witness :
    (engaged22.callback model_dsdl 300 (readiness_transfer 23 2))._arming_pub._data.armed = false ∧
    (engaged22.callback model_dsdl 300 (readiness_transfer 23 2))._arming_pub._data.prearmed
      = true :=
  (C5_readiness_mapping engaged22 model_dsdl 300 (readiness_transfer 23 2) 2
    (by decide) (by decide) (by decide) (by decide)).2.1 (by decide)

/-! ## Identifiers -/

/-- C6. For a primary identifier `P` with `P + 1` representable as a port
identifier, after `subscribe` the primary identifier is still `P`, the
secondary identifier is `P + 1`, and `handlesID id` is true exactly for
`id = P` and `id = P + 1` and false for every other identifier. -/
theorem C6_secondary_is_primary_plus_one (self : UavcanEscSubscriber)
    (hP : self._port_id + 1 < 2 ^ 16) :
    self.subscribe._port_id = self._port_id ∧
    self.subscribe._arming_id = self._port_id + 1 ∧
    (∀ id : Nat, self.subscribe.handlesID id = true ↔
      (id = self._port_id ∨ id = self._port_id + 1)) ∧
    (∀ id : Nat, id ≠ self._port_id → id ≠ self._port_id + 1 →
      self.subscribe.handlesID id = false) := by
  have hid : ((self._port_id % 2 ^ 32 + 1) % 2 ^ 32) % 2 ^ 16 = self._port_id + 1 := by
    norm_num at hP ⊢
    omega
  refine ⟨rfl, hid, ?_, ?_⟩
  · intro id
    simp only [UavcanEscSubscriber.handlesID, UavcanEscSubscriber.subscribe, hid,
      Bool.or_eq_true, beq_iff_eq]
  · intro id h1 h2
    simp only [UavcanEscSubscriber.handlesID, UavcanEscSubscriber.subscribe, hid,
      Bool.or_eq_false_iff, beq_eq_false_iff_ne]
    exact ⟨h1, h2⟩

/-- C6 at a concrete input: primary identifier `22`. -/
theorem C6_secondary_is_primary_plus_one_witness :
    (UavcanEscSubscriber.construct 22 100).subscribe._arming_id = 22 + 1 ∧
    (∀ id : Nat, (UavcanEscSubscriber.construct 22 100).subscribe.handlesID id = true ↔
      (id = 22 ∨ id = 22 + 1)) :=
  ⟨(C6_secondary_is_primary_plus_one (UavcanEscSubscriber.construct 22 100) (by decide)).2.1,
   (C6_secondary_is_primary_plus_one (UavcanEscSubscriber.construct 22 100) (by decide)).2.2.1⟩

/-! ## Setpoint translation -/

/-- C7. Over the exact rationals, for a transfer on the primary identifier
whose decoded setpoint entry `i` is `r` with `0 ≤ r ≤ 8191`, entry `i` of the
record that `callback` publishes equals `2 * (r / 8191) - 1` and lies in
`[-1, 1]`; `r = 0` gives exactly `-1`, `r = 8191` gives exactly `1`, and
`r = 4095` and `r = 4096` give values of magnitude `1 / 8191`. -/
theorem C7_normalized_output (self : UavcanEscSubscriber) (dsdl : DSDL) (now : Nat)
    (receive : CanardTransfer) (i : Fin 8) (r : ℚ)
    (hprim : receive.port_id = self._port_id)
    (hr : (dsdl.reg_drone_service_actuator_common_sp_Vector8_0_1_deserialize_
      { value := fun _ => 0 } receive.payload receive.payload_size).2.value i = r)
    (h0 : 0 ≤ r) (h1 : r ≤ 8191) :
    ∃ outputs : output_control_s,
      (self.callback dsdl now receive)._output_pub.published
        = self._output_pub.published ++ [outputs] ∧
      outputs.value i = 2 * (r / 8191) - 1 ∧
      -1 ≤ outputs.value i ∧ outputs.value i ≤ 1 ∧
      (r = 0 → outputs.value i = -1) ∧
      (r = 8191 → outputs.value i = 1) ∧
      (r = 4095 → |outputs.value i| = 1 / 8191) ∧
      (r = 4096 → |outputs.value i| = 1 / 8191) := by
  rw [callback_primary self dsdl now receive hprim]
  refine ⟨_, rfl, ?_, ?_, ?_, ?_, ?_, ?_, ?_⟩
  · simp only [hr]
  · simp only [hr]
    have : 0 ≤ r / 8191 := div_nonneg h0 (by norm_num)
    linarith
  · simp only [hr]
    have : r / 8191 ≤ 1 := by
      rw [div_le_one (by norm_num)]
      exact h1
    linarith
  · intro hz
    simp only [hr, hz]
    norm_num
  · intro hz
    simp only [hr, hz]
    norm_num
  · intro hz
    simp only [hr, hz]
    norm_num [abs_of_neg]
  · intro hz
    simp only [hr, hz]
    norm_num [abs_of_pos]

/-- C7 at a concrete input: the subscriber `unit22` and a setpoint transfer
whose first entry is `4095`. -/
theorem C7_normalized_output_witness :
    ∃ outputs : output_control_s,
      (unit22.callback model_dsdl 300
        (vector8_transfer 22 [4095, 0, 0, 0, 0, 0, 0, 0]))._output_pub.published
          = unit22._output_pub.published ++ [outputs] ∧
      outputs.value 0 = 2 * (4095 / 8191) - 1 ∧
      |outputs.value 0| = 1 / 8191 :=
  have h := C7_normalized_output unit22 model_dsdl 300
    (vector8_transfer 22 [4095, 0, 0, 0, 0, 0, 0, 0]) 0 4095 (by decide)
    (by norm_num [model_dsdl, model_Vector8_0_1_deserialize_, vector8_transfer])
    (by norm_num) (by norm_num)
  h.elim fun outputs ho => ⟨outputs, ho.1, ho.2.1, ho.2.2.2.2.2.2.1 rfl⟩

/-- C10. For every transfer on the primary identifier that decodes
successfully, `callback` publishes exactly one `OutputRecord`, stamped with
the current time and holding the eight normalized values, publishes nothing on
the armed channel and leaves the stored `ArmedState` unchanged. This does not
depend on what was published before: handling the same transfer a second time
publishes a second record with the same values. -/
theorem C10_setpoint_published_unconditionally (self : UavcanEscSubscriber) (dsdl : DSDL)
    (now now' : Nat) (receive : CanardTransfer)
    (hprim : receive.port_id = self._port_id)
    (_hok : 0 ≤ (dsdl.reg_drone_service_actuator_common_sp_Vector8_0_1_deserialize_
      { value := fun _ => 0 } receive.payload receive.payload_size).1) :
    (self.callback dsdl now receive)._output_pub.published
      = self._output_pub.published ++
          [{ timestamp := now
             value := fun i =>
               2 * ((dsdl.reg_drone_service_actuator_common_sp_Vector8_0_1_deserialize_
                 { value := fun _ => 0 } receive.payload receive.payload_size).2.value i
                   / 8191) - 1 }] ∧
    (self.callback dsdl now receive)._arming_pub = self._arming_pub ∧
    ((self.callback dsdl now receive).callback dsdl now' receive)._output_pub.published
      = self._output_pub.published ++
          [{ timestamp := now
             value := fun i =>
               2 * ((dsdl.reg_drone_service_actuator_common_sp_Vector8_0_1_deserialize_
                 { value := fun _ => 0 } receive.payload receive.payload_size).2.value i
                   / 8191) - 1 },
           { timestamp := now'
             value := fun i =>
               2 * ((dsdl.reg_drone_service_actuator_common_sp_Vector8_0_1_deserialize_
                 { value := fun _ => 0 } receive.payload receive.payload_size).2.value i
                   / 8191) - 1 }] ∧
    ((self.callback dsdl now receive).callback dsdl now' receive)._arming_pub
      = self._arming_pub := by
  have hprim' : receive.port_id = (self.callback dsdl now receive)._port_id := by
    rw [(callback_ids self dsdl now receive).1]
    exact hprim
  rw [callback_primary (self.callback dsdl now receive) dsdl now' receive hprim',
    callback_primary self dsdl now receive hprim]
  refine ⟨rfl, rfl, ?_, rfl⟩
  simp

/-- C10 at a concrete input: the subscriber `unit22` and a setpoint transfer
on port `22`. -/
theorem C10_setpoint_published_unconditionally_witness :
    (unit22.callback model_dsdl 300
      (vector8_transfer 22 [1000, 2000, 3000, 4000, 0, 0, 0, 0]))._output_pub.published
      = unit22._output_pub.published ++
          [{ timestamp := 300
             value := fun i =>
               2 * ((model_dsdl.reg_drone_service_actuator_common_sp_Vector8_0_1_deserialize_
                 { value := fun _ => 0 }
                 (vector8_transfer 22 [1000, 2000, 3000, 4000, 0, 0, 0, 0]).payload
                 (vector8_transfer 22 [1000, 2000, 3000, 4000, 0, 0, 0, 0]).payload_size).2.value i
                   / 8191) - 1 }] ∧
    (unit22.callback model_dsdl 300
      (vector8_transfer 22 [1000, 2000, 3000, 4000, 0, 0, 0, 0]))._arming_pub
      = unit22._arming_pub :=
  ⟨(C10_setpoint_published_unconditionally unit22 model_dsdl 300 400
      (vector8_transfer 22 [1000, 2000, 3000, 4000, 0, 0, 0, 0]) (by decide) (by decide)).1,
   (C10_setpoint_published_unconditionally unit22 model_dsdl 300 400
      (vector8_transfer 22 [1000, 2000, 3000, 4000, 0, 0, 0, 0]) (by decide) (by decide)).2.1⟩

/-! ## Construction and repeated codes -/

/-- C8. Immediately after construction the stored `ArmedState` has
`armed = false` and `prearmed = false` (and the time of construction as
timestamp), and the armed channel holds exactly one published record, equal to
the stored one; nothing has been published on the output channel. -/
theorem C8_initial_armed_state (port_id now : Nat) :
    (UavcanEscSubscriber.construct port_id now)._arming_pub._data.armed = false ∧
    (UavcanEscSubscriber.construct port_id now)._arming_pub._data.prearmed = false ∧
    (UavcanEscSubscriber.construct port_id now)._arming_pub._data.timestamp = now ∧
    (UavcanEscSubscriber.construct port_id now)._arming_pub.published
      = [{ timestamp := now, armed := false, prearmed := false }] ∧
    (UavcanEscSubscriber.construct port_id now)._arming_pub.published
      = [(UavcanEscSubscriber.construct port_id now)._arming_pub._data] ∧
    (UavcanEscSubscriber.construct port_id now)._output_pub.published = [] :=
  ⟨rfl, rfl, rfl, rfl, rfl, rfl⟩

/-- C9. Two consecutive readiness transfers on the secondary identifier that
carry the same defined code, with `(a, p)` the candidate flags of the code:
the second transfer is a no-op (the whole state, so the armed channel, the
stored flags and the stored timestamp, is exactly as the first transfer left
it), and the armed channel receives not more than one record across the pair:
the record `(a, p)` stamped with the time of the first transfer when the
stored flags differed from `(a, p)`, and no record when they already equalled
it. -/
theorem C9_same_code_twice (self : UavcanEscSubscriber) (dsdl : DSDL) (now₁ now₂ : Nat)
    (rx₁ rx₂ : CanardTransfer) (v : Nat) (a p : Bool)
    (hne : self._arming_id ≠ self._port_id)
    (h₁ : rx₁.port_id = self._arming_id) (h₂ : rx₂.port_id = self._arming_id)
    (hv₁ : (dsdl.reg_drone_service_common_Readiness_0_1_deserialize_ { value := 0 }
      rx₁.payload rx₁.payload_size).2.value = v)
    (hv₂ : (dsdl.reg_drone_service_common_Readiness_0_1_deserialize_ { value := 0 }
      rx₂.payload rx₂.payload_size).2.value = v)
    (hrow :
      (v = dsdl.reg_drone_service_common_Readiness_0_1_SLEEP ∧ a = false ∧ p = false) ∨
      (v = dsdl.reg_drone_service_common_Readiness_0_1_STANDBY ∧ a = false ∧ p = true) ∨
      (v = dsdl.reg_drone_service_common_Readiness_0_1_ENGAGED ∧ a = true ∧ p = true)) :
    (self.callback dsdl now₁ rx₁).callback dsdl now₂ rx₂ = self.callback dsdl now₁ rx₁ ∧
    ((a ≠ self._arming_pub._data.armed ∨ p ≠ self._arming_pub._data.prearmed) →
      ((self.callback dsdl now₁ rx₁).callback dsdl now₂ rx₂)._arming_pub.published
        = self._arming_pub.published ++ [{ timestamp := now₁, armed := a, prearmed := p }]) ∧
    (¬ (a ≠ self._arming_pub._data.armed ∨ p ≠ self._arming_pub._data.prearmed) →
      ((self.callback dsdl now₁ rx₁).callback dsdl now₂ rx₂)._arming_pub.published
        = self._arming_pub.published) ∧
    ((self.callback dsdl now₁ rx₁).callback dsdl now₂ rx₂)._arming_pub.published.length
      ≤ self._arming_pub.published.length + 1 := by
  have hne₁ : rx₁.port_id ≠ self._port_id := by
    rw [h₁]
    exact hne
  have hrow₁ :
      (v = dsdl.reg_drone_service_common_Readiness_0_1_SLEEP ∧ a = false ∧ p = false) ∨
      (v = dsdl.reg_drone_service_common_Readiness_0_1_STANDBY ∧ a = false ∧ p = true) ∨
      (v = dsdl.reg_drone_service_common_Readiness_0_1_ENGAGED ∧ a = true ∧ p = true) ∨
      (v ≠ dsdl.reg_drone_service_common_Readiness_0_1_SLEEP ∧
       v ≠ dsdl.reg_drone_service_common_Readiness_0_1_STANDBY ∧
       v ≠ dsdl.reg_drone_service_common_Readiness_0_1_ENGAGED ∧ a = false ∧ p = false) := by
    rcases hrow with h | h | h
    · exact Or.inl h
    · exact Or.inr (Or.inl h)
    · exact Or.inr (Or.inr (Or.inl h))
  have hflags := callback_secondary_flags self dsdl now₁ rx₁ v a p hne₁ h₁ hv₁ hrow
  have hids := callback_ids self dsdl now₁ rx₁
  have hsecond : (self.callback dsdl now₁ rx₁).callback dsdl now₂ rx₂
      = self.callback dsdl now₁ rx₁ := by
    have hcb := callback_secondary (self.callback dsdl now₁ rx₁) dsdl now₂ rx₂ a p
      (by rw [hids.1, h₂]
          exact hne)
      (by rw [hids.2, h₂])
      (by rw [hv₂]
          exact hrow₁)
    rw [hcb, if_pos ⟨hflags.1.symm, hflags.2.symm⟩]
  have hfirst := callback_secondary self dsdl now₁ rx₁ a p hne₁ h₁
    (by rw [hv₁]
        exact hrow₁)
  rw [hsecond]
  refine ⟨rfl, ?_, ?_, ?_⟩
  · intro hd
    rw [hfirst, if_neg]
    rintro ⟨ha, hp⟩
    rcases hd with hd | hd
    · exact hd ha
    · exact hd hp
  · intro hd
    rw [hfirst, if_pos]
    constructor
    · by_contra ha
      exact hd (Or.inl ha)
    · by_contra hp
      exact hd (Or.inr hp)
  · rw [hfirst]
    split_ifs
    · exact Nat.le_succ _
    · simp

/-- C9 at a concrete input: the subscriber `unit22` (disarmed) handles STANDBY
at time `200` and again at time `300`; one record goes out, stamped `200`. -/
theorem C9_same_code_twice_witness :
    (unit22.callback model_dsdl 200 (readiness_transfer 23 2)).callback model_dsdl 300
        (readiness_transfer 23 2)
      = unit22.callback model_dsdl 200 (readiness_transfer 23 2) ∧
    ((unit22.callback model_dsdl 200 (readiness_transfer 23 2)).callback model_dsdl 300
        (readiness_transfer 23 2))._arming_pub.published
      = unit22._arming_pub.published ++ [{ timestamp := 200, armed := false, prearmed := true }] :=
  ⟨(C9_same_code_twice unit22 model_dsdl 200 300 (readiness_transfer 23 2)
      (readiness_transfer 23 2) 2 false true (by decide) (by decide) (by decide) (by decide)
      (by decide) (Or.inr (Or.inl ⟨by decide, rfl, rfl⟩))).1,
   (C9_same_code_twice unit22 model_dsdl 200 300 (readiness_transfer 23 2)
      (readiness_transfer 23 2) 2 false true (by decide) (by decide) (by decide) (by decide)
      (by decide) (Or.inr (Or.inl ⟨by decide, rfl, rfl⟩))).2.1 (Or.inr (by decide))⟩

/-! ## Before `subscribe`, and transfers on other identifiers -/

/-- C11, counterexample. A subscriber on which `subscribe` has not been called,
whose primary identifier is still the reserved unset value: `handlesID`
returns true for the reserved unset value. -/
theorem C11_counterexample :
    (UavcanEscSubscriber.construct CANARD_PORT_ID_UNSET 100)._port_id = CANARD_PORT_ID_UNSET ∧
    (UavcanEscSubscriber.construct CANARD_PORT_ID_UNSET 100)._arming_id = CANARD_PORT_ID_UNSET ∧
    (UavcanEscSubscriber.construct CANARD_PORT_ID_UNSET 100).handlesID CANARD_PORT_ID_UNSET
      = true := by
  decide

/-- C11, amended. Before `subscribe` has been called the secondary identifier
is the reserved unset value, and `handlesID id` returns true exactly when `id`
is the stored primary identifier or the reserved unset value. With the
primary identifier still unset it therefore returns false for every
identifier other than the reserved unset value, and true for that value. -/
theorem C11_handlesID_before_subscribe (port_id now : Nat) :
    (UavcanEscSubscriber.construct port_id now)._arming_id = CANARD_PORT_ID_UNSET ∧
    (∀ id : Nat, (UavcanEscSubscriber.construct port_id now).handlesID id = true ↔
      (id = port_id ∨ id = CANARD_PORT_ID_UNSET)) ∧
    (∀ id : Nat, (UavcanEscSubscriber.construct CANARD_PORT_ID_UNSET now).handlesID id
      = decide (id = CANARD_PORT_ID_UNSET)) ∧
    (UavcanEscSubscriber.construct port_id now).handlesID CANARD_PORT_ID_UNSET = true := by
  refine ⟨rfl, ?_, ?_, ?_⟩
  · intro id
    simp only [UavcanEscSubscriber.handlesID, UavcanEscSubscriber.construct,
      PublicationData.update, Bool.or_eq_true, beq_iff_eq]
  · intro id
    by_cases h : id = CANARD_PORT_ID_UNSET
    · simp [UavcanEscSubscriber.handlesID, UavcanEscSubscriber.construct, h]
    · simp [UavcanEscSubscriber.handlesID, UavcanEscSubscriber.construct, h]
  · simp [UavcanEscSubscriber.handlesID, UavcanEscSubscriber.construct]

/-- C12. A transfer whose identifier equals neither the primary nor the
secondary identifier is ignored by `callback`: the subscriber is returned as
it was, so nothing is published on either channel and the stored
`ArmedState` is unchanged. -/
theorem C12_other_identifier_ignored (self : UavcanEscSubscriber) (dsdl : DSDL) (now : Nat)
    (receive : CanardTransfer)
    (hprim : receive.port_id ≠ self._port_id) (harm : receive.port_id ≠ self._arming_id) :
    self.callback dsdl now receive = self ∧
    (self.callback dsdl now receive)._output_pub.published = self._output_pub.published ∧
    (self.callback dsdl now receive)._arming_pub.published = self._arming_pub.published ∧
    (self.callback dsdl now receive)._arming_pub._data = self._arming_pub._data := by
  have h : self.callback dsdl now receive = self := by
    simp only [UavcanEscSubscriber.callback, if_neg hprim, if_neg harm]
  rw [h]
  exact ⟨rfl, rfl, rfl, rfl⟩

/-- C12 at a concrete input: the armed subscriber `engaged22` (identifiers
`22` and `23`) and a SLEEP payload on port `24`. -/
theorem C12_other_identifier_ignored_witness :
    engaged22.callback model_dsdl 300 (readiness_transfer 24 0) = engaged22 :=
  (C12_other_identifier_ignored engaged22 model_dsdl 300 (readiness_transfer 24 0)
    (by decide) (by decide)).1

/-! ## Scenarios -/

/-- C13. A subscriber constructed (at time `t₀`) and subscribed with primary
identifier `22`, hence secondary identifier `23`, handles on identifier `23`
the readiness transfers STANDBY, STANDBY, ENGAGED in that order. After the
record published at construction, the armed channel receives exactly two
records: `(armed, prearmed) = (false, true)` from the first STANDBY, nothing
from the second, then `(true, true)` from ENGAGED. -/
theorem C13_standby_standby_engaged (dsdl : DSDL) (t₀ t₁ t₂ t₃ : Nat)
    (rx₁ rx₂ rx₃ : CanardTransfer)
    (hp₁ : rx₁.port_id = 23) (hp₂ : rx₂.port_id = 23) (hp₃ : rx₃.port_id = 23)
    (hv₁ : (dsdl.reg_drone_service_common_Readiness_0_1_deserialize_ { value := 0 }
      rx₁.payload rx₁.payload_size).2.value = dsdl.reg_drone_service_common_Readiness_0_1_STANDBY)
    (hv₂ : (dsdl.reg_drone_service_common_Readiness_0_1_deserialize_ { value := 0 }
      rx₂.payload rx₂.payload_size).2.value = dsdl.reg_drone_service_common_Readiness_0_1_STANDBY)
    (hv₃ : (dsdl.reg_drone_service_common_Readiness_0_1_deserialize_ { value := 0 }
      rx₃.payload rx₃.payload_size).2.value
        = dsdl.reg_drone_service_common_Readiness_0_1_ENGAGED) :
    (UavcanEscSubscriber.construct 22 t₀).subscribe._arming_id = 23 ∧
    (UavcanEscSubscriber.construct 22 t₀).subscribe._arming_pub.published
      = [{ timestamp := t₀, armed := false, prearmed := false }] ∧
    ((UavcanEscSubscriber.construct 22 t₀).subscribe.callback dsdl t₁ rx₁)._arming_pub.published
      = [{ timestamp := t₀, armed := false, prearmed := false },
         { timestamp := t₁, armed := false, prearmed := true }] ∧
    (((UavcanEscSubscriber.construct 22 t₀).subscribe.callback dsdl t₁ rx₁).callback dsdl t₂
        rx₂)._arming_pub.published
      = [{ timestamp := t₀, armed := false, prearmed := false },
         { timestamp := t₁, armed := false, prearmed := true }] ∧
    ((((UavcanEscSubscriber.construct 22 t₀).subscribe.callback dsdl t₁ rx₁).callback dsdl t₂
        rx₂).callback dsdl t₃ rx₃)._arming_pub.published
      = [{ timestamp := t₀, armed := false, prearmed := false },
         { timestamp := t₁, armed := false, prearmed := true },
         { timestamp := t₃, armed := true, prearmed := true }] := by
  have e₁ := callback_secondary (UavcanEscSubscriber.construct 22 t₀).subscribe dsdl t₁ rx₁
    false true (by rw [hp₁]; exact (by decide : (23 : Nat) ≠ 22)) (by rw [hp₁]; rfl) (Or.inr (Or.inl ⟨hv₁, rfl, rfl⟩))
  rw [if_neg (by rintro ⟨-, h⟩; exact absurd (show true = false from h) (by decide))] at e₁
  rw [e₁]
  have e₂ := callback_secondary
    { (UavcanEscSubscriber.construct 22 t₀).subscribe with
      _arming_pub :=
        { _data := { timestamp := t₁, armed := false, prearmed := true }
          published := (UavcanEscSubscriber.construct 22 t₀).subscribe._arming_pub.published ++
            [{ timestamp := t₁, armed := false, prearmed := true }] } }
    dsdl t₂ rx₂ false true (by rw [hp₂]; exact (by decide : (23 : Nat) ≠ 22)) (by rw [hp₂]; rfl)
    (Or.inr (Or.inl ⟨hv₂, rfl, rfl⟩))
  rw [if_pos ⟨rfl, rfl⟩] at e₂
  rw [e₂]
  have e₃ := callback_secondary
    { (UavcanEscSubscriber.construct 22 t₀).subscribe with
      _arming_pub :=
        { _data := { timestamp := t₁, armed := false, prearmed := true }
          published := (UavcanEscSubscriber.construct 22 t₀).subscribe._arming_pub.published ++
            [{ timestamp := t₁, armed := false, prearmed := true }] } }
    dsdl t₃ rx₃ true true (by rw [hp₃]; exact (by decide : (23 : Nat) ≠ 22)) (by rw [hp₃]; rfl)
    (Or.inr (Or.inr (Or.inl ⟨hv₃, rfl, rfl⟩)))
  rw [if_neg (by rintro ⟨h, -⟩; exact absurd (show true = false from h) (by decide))] at e₃
  rw [e₃]
  exact ⟨rfl, rfl, rfl, rfl, rfl⟩

/-- C13 at a concrete input: construction at time `100`, then the payload bytes
`2`, `2`, `3` on port `23` at times `200`, `300`, `400`. -/
theorem C13_standby_standby_engaged_witness :
    (((unit22.callback model_dsdl 200 (readiness_transfer 23 2)).callback model_dsdl 300
        (readiness_transfer 23 2)).callback model_dsdl 400
        (readiness_transfer 23 3))._arming_pub.published
      = [{ timestamp := 100, armed := false, prearmed := false },
         { timestamp := 200, armed := false, prearmed := true },
         { timestamp := 400, armed := true, prearmed := true }] :=
  (C13_standby_standby_engaged model_dsdl 100 200 300 400 (readiness_transfer 23 2)
    (readiness_transfer 23 2) (readiness_transfer 23 3) rfl rfl rfl (by decide) (by decide)
    (by decide)).2.2.2.2

/-- C14. For a subscriber with primary identifier `22`, a transfer on
identifier `22` that decodes to the vector `[1000, 2000, 3000, 4000, 0, 0, 0,
0]` publishes one `OutputRecord`, stamped with the current time, whose eight
values, computed over the exact rationals, each differ by less than `0.001`
from `[-0.756, -0.512, -0.268, -0.024, -1.0, -1.0, -1.0, -1.0]`. -/
theorem C14_yakut_vector (self : UavcanEscSubscriber) (dsdl : DSDL) (now : Nat)
    (receive : CanardTransfer)
    (hid : self._port_id = 22) (hprim : receive.port_id = 22)
    (hval : (dsdl.reg_drone_service_actuator_common_sp_Vector8_0_1_deserialize_
      { value := fun _ => 0 } receive.payload receive.payload_size).2.value
        = ![1000, 2000, 3000, 4000, 0, 0, 0, 0]) :
    ∃ outputs : output_control_s,
      (self.callback dsdl now receive)._output_pub.published
        = self._output_pub.published ++ [outputs] ∧
      outputs.timestamp = now ∧
      ∀ i : Fin 8,
        |outputs.value i - ![-0.756, -0.512, -0.268, -0.024, -1.0, -1.0, -1.0, -1.0] i|
          < 0.001 := by
  rw [callback_primary self dsdl now receive (hprim.trans hid.symm)]
  refine ⟨_, rfl, rfl, ?_⟩
  simp only [hval, Fin.forall_fin_succ, Matrix.cons_val_zero, Matrix.cons_val_succ]
  norm_num [abs_lt]

/-- C14 at a concrete input: the subscriber `unit22` and the sixteen payload
bytes that hold `[1000, 2000, 3000, 4000, 0, 0, 0, 0]`. -/
theorem C14_yakut_vector_witness :
    ∃ outputs : output_control_s,
      (unit22.callback model_dsdl 300
        (vector8_transfer 22 [1000, 2000, 3000, 4000, 0, 0, 0, 0]))._output_pub.published
          = unit22._output_pub.published ++ [outputs] ∧
      outputs.timestamp = 300 ∧
      ∀ i : Fin 8,
        |outputs.value i - ![-0.756, -0.512, -0.268, -0.024, -1.0, -1.0, -1.0, -1.0] i|
          < 0.001 :=
  C14_yakut_vector unit22 model_dsdl 300
    (vector8_transfer 22 [1000, 2000, 3000, 4000, 0, 0, 0, 0]) (by decide) rfl
    (by
      funext i
      revert i
      simp only [Fin.forall_fin_succ, Matrix.cons_val_zero, Matrix.cons_val_succ]
      norm_num [model_dsdl, model_Vector8_0_1_deserialize_, vector8_transfer])

/-! ## No clamping -/

/-- C15. The setpoint normalization applies no clamping. Over the exact
rationals the map `r ↦ 2 * (r / 8191) - 1` is strictly increasing, and for a
transfer on the primary identifier whose decoded entry `i` is `r`, whatever
`r` is, one record is published and its entry `i` is `2 * (r / 8191) - 1`:
strictly greater than `1` when `r > 8191`, strictly less than `-1` when
`r < 0`, and strictly below entry `j` of the same record whenever `r` is
below the decoded entry `j`. -/
theorem C15_no_clamping (self : UavcanEscSubscriber) (dsdl : DSDL) (now : Nat)
    (receive : CanardTransfer) (i : Fin 8) (r : ℚ)
    (hprim : receive.port_id = self._port_id)
    (hr : (dsdl.reg_drone_service_actuator_common_sp_Vector8_0_1_deserialize_
      { value := fun _ => 0 } receive.payload receive.payload_size).2.value i = r) :
    StrictMono (fun x : ℚ => 2 * (x / 8191) - 1) ∧
    ∃ outputs : output_control_s,
      (self.callback dsdl now receive)._output_pub.published
        = self._output_pub.published ++ [outputs] ∧
      outputs.value i = 2 * (r / 8191) - 1 ∧
      (8191 < r → 1 < outputs.value i) ∧
      (r < 0 → outputs.value i < -1) ∧
      (∀ j : Fin 8,
        r < (dsdl.reg_drone_service_actuator_common_sp_Vector8_0_1_deserialize_
          { value := fun _ => 0 } receive.payload receive.payload_size).2.value j →
        outputs.value i < outputs.value j) := by
  have hmono : StrictMono (fun x : ℚ => 2 * (x / 8191) - 1) := by
    intro x y hxy
    have : x / 8191 < y / 8191 := div_lt_div_of_pos_right hxy (by norm_num)
    show 2 * (x / 8191) - 1 < 2 * (y / 8191) - 1
    linarith
  rw [callback_primary self dsdl now receive hprim]
  refine ⟨hmono, _, rfl, ?_, ?_, ?_, ?_⟩
  · simp only [hr]
  · intro h
    have := hmono h
    simp only [hr]
    norm_num at this
    linarith
  · intro h
    have := hmono h
    simp only [hr]
    norm_num at this
    linarith
  · intro j h
    have := hmono h
    simp only [hr]
    exact this

/-- C15 at a concrete input: the subscriber `unit22` and a setpoint transfer
whose first entry is `9000`, above the full-scale value `8191`. -/
theorem C15_no_clamping_witness :
    ∃ outputs : output_control_s,
      (unit22.callback model_dsdl 300
        (vector8_transfer 22 [9000, 0, 0, 0, 0, 0, 0, 0]))._output_pub.published
          = unit22._output_pub.published ++ [outputs] ∧
      outputs.value 0 = 2 * (9000 / 8191) - 1 ∧
      1 < outputs.value 0 :=
  have h := (C15_no_clamping unit22 model_dsdl 300
    (vector8_transfer 22 [9000, 0, 0, 0, 0, 0, 0, 0]) 0 9000 (by decide)
    (by norm_num [model_dsdl, model_Vector8_0_1_deserialize_, vector8_transfer])).2
  h.elim fun outputs ho => ⟨outputs, ho.1, ho.2.1, ho.2.2.1 (by norm_num)⟩

/-! ## Invariants of the stored `ArmedState` -/

/-- What one `callback` can do to the armed publication handle: nothing, or
store a record stamped `now` whose flags are a row of the readiness table
(never armed without pre-armed) and publish that same record. -/
theorem callback_arming_pub_cases (self : UavcanEscSubscriber) (dsdl : DSDL) (now : Nat)
    (receive : CanardTransfer) :
    (self.callback dsdl now receive)._arming_pub = self._arming_pub ∨
    ∃ a p : Bool, (a = false ∨ p = true) ∧
      (self.callback dsdl now receive)._arming_pub
        = { _data := { timestamp := now, armed := a, prearmed := p }
            published := self._arming_pub.published ++
              [{ timestamp := now, armed := a, prearmed := p }] } := by
  by_cases hprim : receive.port_id = self._port_id
  · left
    rw [callback_primary self dsdl now receive hprim]
  · by_cases harm : receive.port_id = self._arming_id
    · have key : ∀ a p : Bool, (a = false ∨ p = true) →
          self.callback dsdl now receive
            = (if a = self._arming_pub._data.armed ∧ p = self._arming_pub._data.prearmed then self
               else { self with
                      _arming_pub :=
                        { _data := { timestamp := now, armed := a, prearmed := p }
                          published := self._arming_pub.published ++
                            [{ timestamp := now, armed := a, prearmed := p }] } }) →
          ((self.callback dsdl now receive)._arming_pub = self._arming_pub ∨
            ∃ a p : Bool, (a = false ∨ p = true) ∧
              (self.callback dsdl now receive)._arming_pub
                = { _data := { timestamp := now, armed := a, prearmed := p }
                    published := self._arming_pub.published ++
                      [{ timestamp := now, armed := a, prearmed := p }] }) := by
        intro a p hap e
        rw [e]
        split_ifs
        · exact Or.inl rfl
        · exact Or.inr ⟨a, p, hap, rfl⟩
      by_cases h1 : (dsdl.reg_drone_service_common_Readiness_0_1_deserialize_ { value := 0 }
          receive.payload receive.payload_size).2.value
            = dsdl.reg_drone_service_common_Readiness_0_1_SLEEP
      · exact key false false (Or.inl rfl)
          (callback_secondary self dsdl now receive false false hprim harm
            (Or.inl ⟨h1, rfl, rfl⟩))
      · by_cases h2 : (dsdl.reg_drone_service_common_Readiness_0_1_deserialize_ { value := 0 }
            receive.payload receive.payload_size).2.value
              = dsdl.reg_drone_service_common_Readiness_0_1_STANDBY
        · exact key false true (Or.inl rfl)
            (callback_secondary self dsdl now receive false true hprim harm
              (Or.inr (Or.inl ⟨h2, rfl, rfl⟩)))
        · by_cases h3 : (dsdl.reg_drone_service_common_Readiness_0_1_deserialize_ { value := 0 }
              receive.payload receive.payload_size).2.value
                = dsdl.reg_drone_service_common_Readiness_0_1_ENGAGED
          · exact key true true (Or.inr rfl)
              (callback_secondary self dsdl now receive true true hprim harm
                (Or.inr (Or.inr (Or.inl ⟨h3, rfl, rfl⟩))))
          · exact key false false (Or.inl rfl)
              (callback_secondary self dsdl now receive false false hprim harm
                (Or.inr (Or.inr (Or.inr ⟨h1, h2, h3, rfl, rfl⟩))))
    · left
      simp only [UavcanEscSubscriber.callback, if_neg hprim, if_neg harm]

/-- The same for any single call: `subscribe` does not touch the armed
publication handle. -/
theorem perform_arming_pub_cases (self : UavcanEscSubscriber) (dsdl : DSDL) (call : Operation) :
    (self.perform dsdl call)._arming_pub = self._arming_pub ∨
    ∃ (now : Nat) (a p : Bool), (a = false ∨ p = true) ∧
      (self.perform dsdl call)._arming_pub
        = { _data := { timestamp := now, armed := a, prearmed := p }
            published := self._arming_pub.published ++
              [{ timestamp := now, armed := a, prearmed := p }] } := by
  cases call with
  | subscribe => exact Or.inl rfl
  | callback now receive =>
    rcases callback_arming_pub_cases self dsdl now receive with h | ⟨a, p, hap, h⟩
    · exact Or.inl h
    · exact Or.inr ⟨now, a, p, hap, h⟩

/-- A property of the armed publication handle that holds now and that every
store-and-publish step establishes holds after any sequence of calls. -/
theorem run_arming_pub_invariant (P : PublicationData actuator_armed_s → Prop) (dsdl : DSDL)
    (hstep : ∀ (published : List actuator_armed_s) (now : Nat) (a p : Bool),
      (a = false ∨ p = true) →
      P { _data := { timestamp := now, armed := a, prearmed := p }
          published := published ++ [{ timestamp := now, armed := a, prearmed := p }] })
    (calls : List Operation) (self : UavcanEscSubscriber) (h : P self._arming_pub) :
    P (self.run dsdl calls)._arming_pub := by
  induction calls generalizing self with
  | nil => exact h
  | cons call calls ih =>
    have hrun : self.run dsdl (call :: calls) = (self.perform dsdl call).run dsdl calls := rfl
    rw [hrun]
    apply ih
    rcases perform_arming_pub_cases self dsdl call with e | ⟨now, a, p, hap, e⟩
    · rw [e]
      exact h
    · rw [e]
      exact hstep _ now a p hap

/-- C16. In every state reached from construction by any sequence of calls
of `callback` (any identifiers, payloads, decode outcomes and decoded values)
and of `subscribe`, the stored `ArmedState` satisfies: armed implies
pre-armed. -/
theorem C16_armed_implies_prearmed (dsdl : DSDL) (port_id t₀ : Nat) (calls : List Operation) :
    ((UavcanEscSubscriber.construct port_id t₀).run dsdl calls)._arming_pub._data.armed = true →
    ((UavcanEscSubscriber.construct port_id t₀).run dsdl calls)._arming_pub._data.prearmed
      = true := by
  refine run_arming_pub_invariant (fun pub => pub._data.armed = true → pub._data.prearmed = true)
    dsdl ?_ calls (UavcanEscSubscriber.construct port_id t₀) ?_
  · intro published now a p hap ha
    rcases hap with h | h
    · rw [show a = true from ha] at h
      exact absurd h (by decide)
    · exact h
  · intro h
    exact absurd (show false = true from h) (by decide)

/-- C16 at a concrete input: construction with primary identifier `22`,
`subscribe`, then an ENGAGED transfer on port `23`, which arms the unit. -/
theorem C16_armed_implies_prearmed_witness :
    ((UavcanEscSubscriber.construct 22 100).run model_dsdl
      [Operation.subscribe, Operation.callback 200 (readiness_transfer 23 3)])._arming_pub._data.armed
      = true ∧
    ((UavcanEscSubscriber.construct 22 100).run model_dsdl
      [Operation.subscribe,
        Operation.callback 200 (readiness_transfer 23 3)])._arming_pub._data.prearmed = true :=
  ⟨by decide,
   C16_armed_implies_prearmed model_dsdl 22 100
    [Operation.subscribe, Operation.callback 200 (readiness_transfer 23 3)] (by decide)⟩

/-- C17. After construction, and after every further call of `callback` (or
`subscribe`), the stored `ArmedState` (armed, prearmed, timestamp) is the
record most recently published on the armed channel. Moreover a single
`callback`, from any state, either leaves the stored record and the channel
as they were or publishes, as one new record, exactly the record it has
stored. -/
theorem C17_stored_is_last_published (dsdl : DSDL) (port_id t₀ : Nat) (calls : List Operation)
    (self : UavcanEscSubscriber) (now : Nat) (receive : CanardTransfer) :
    (UavcanEscSubscriber.construct port_id t₀)._arming_pub.published.getLast?
      = some (UavcanEscSubscriber.construct port_id t₀)._arming_pub._data ∧
    ((UavcanEscSubscriber.construct port_id t₀).run dsdl calls)._arming_pub.published.getLast?
      = some ((UavcanEscSubscriber.construct port_id t₀).run dsdl calls)._arming_pub._data ∧
    ((self.callback dsdl now receive)._arming_pub = self._arming_pub ∨
      (self.callback dsdl now receive)._arming_pub.published
        = self._arming_pub.published ++ [(self.callback dsdl now receive)._arming_pub._data]) := by
  refine ⟨rfl, ?_, ?_⟩
  · refine run_arming_pub_invariant (fun pub => pub.published.getLast? = some pub._data)
      dsdl ?_ calls (UavcanEscSubscriber.construct port_id t₀) rfl
    intro published now a p _
    simp
  · rcases callback_arming_pub_cases self dsdl now receive with h | ⟨a, p, _, h⟩
    · exact Or.inl h
    · right
      rw [h]

end Esc
